import Mathlib

/-! LoRaWAN link layer of the camera-extension firmware (`src/lorawan.cpp`)

A shallow embedding of `lorawan_send` and of the four radio callbacks
(`lorawan_joinCallback`, `lorawan_checkCallback`, `lorawan_receiveCallback`,
`lorawan_doneCallback`), followed by theorems about them.

Conventions of the embedding:

* The radio stack (`LoRaWAN`) is a black box.  What it answers to the queries made
  during one call (`joined()`, `busy()`, `sendPacket(..)`, `linkGateways()`,
  `parsePacket()`, `read(..)`, `remotePort()`) is a record `Radio`, over which every
  theorem quantifies.
* Every request made to the radio (`setADR`, `setDataRate`, `sendPacket`,
  `setRX2Channel`, `rejoinOTAA`) and every invocation of a consumer hook
  (`settings_from_downlink`, `command_receive`) is appended, in program order, to the
  list `State.calls`.  The hooks live in other translation units; what they do after
  being invoked is not part of this file.
* Output on the debug serial port is not modelled.
* Bytes and ports are natural numbers.
-/

namespace Lorawan

/-- Requests to the radio stack and invocations of the two consumer hooks, as they are
recorded in `State.calls`. -/
inductive Call where
  | setADR (enable : Bool)
  | setDataRate (datarate : Nat)
  | sendPacket (port : Nat) (buffer : List Nat) (confirmed : Bool)
  | setRX2Channel (frequency : Nat) (datarate : Nat)
  | rejoinOTAA
  | settings_from_downlink (bytes : List Nat)
  | command_receive (command : Nat)
  deriving DecidableEq, Repr

/-- Answers of the radio stack during one call into this module. -/
structure Radio where
  /-- `LoRaWAN.joined()` -/
  joined : Bool
  /-- `LoRaWAN.busy()` -/
  busy : Bool
  /-- `LoRaWAN.sendPacket(port, buffer, size, confirmed)`; `buffer` is the `size` bytes. -/
  sendPacket : Nat → List Nat → Bool → Int
  /-- `LoRaWAN.linkGateways()` -/
  linkGateways : Nat
  /-- `LoRaWAN.parsePacket()` -/
  parsePacket : Bool
  /-- Payload of the pending downlink frame, which `LoRaWAN.read` delivers. -/
  rxPayload : List Nat
  /-- `LoRaWAN.remotePort()` -/
  remotePort : Nat

/-- Values supplied by the settings and command modules, whose sources are not part of
`lorawan.cpp`. -/
structure Config where
  /-- `settings_get_packet_port()` -/
  settings_get_packet_port : Nat
  /-- `command_get_packet_port()` -/
  command_get_packet_port : Nat
  /-- `sizeof(settingsData_t)` -/
  sizeof_settingsData_t : Nat

/-- Variables read or written by `lorawan.cpp`, and the record of its calls. -/
structure State where
  /-- The global `lorawan_send_successful`. -/
  lorawan_send_successful : Bool
  /-- The byte `settings_packet.data.lorawan_datarate_adr` (`uint8_t`). -/
  lorawan_datarate_adr : Nat
  /-- Modelled from the spec: the shared downlink settings buffer
  `settings_packet_downlink.bytes`, whose declaration is not in the source; it is the
  byte view of one settings record, `sizeof(settingsData_t)` bytes long. -/
  settings_packet_downlink : List Nat
  /-- Requests to the radio and hook invocations so far, oldest first. -/
  calls : List Call
  /-- Set once a store of `lorawan_receiveCallback` into its local array `data` fell
  outside the array. -/
  overrun : Bool

/-- Payloads with which `command_receive` was invoked, oldest first. -/
def commandCalls : List Call → List Nat
  | [] => []
  | Call.command_receive c :: cs => c :: commandCalls cs
  | _ :: cs => commandCalls cs

/-- Contents of the downlink settings buffer at each invocation of
`settings_from_downlink`, oldest first. -/
def settingsCalls : List Call → List (List Nat)
  | [] => []
  | Call.settings_from_downlink b :: cs => b :: settingsCalls cs
  | _ :: cs => settingsCalls cs

/-- `lorawan_send(port, buffer, size)`; `buffer` is the list of the `size` bytes.
Returns the function's result and the state after the call. -/
def lorawan_send (r : Radio) (s : State) (port : Nat) (buffer : List Nat) : Bool × State :=
  if !r.joined then (false, s)
  else if r.busy then (false, s)
  else
    let s1 : State :=
      { s with calls := s.calls ++ [Call.setADR ((s.lorawan_datarate_adr >>> 7) != 0)] }
    let s2 : State :=
      { s1 with calls := s1.calls ++ [Call.setDataRate (s.lorawan_datarate_adr &&& 0x0f)] }
    let response : Int := r.sendPacket port buffer false
    let s3 : State := { s2 with calls := s2.calls ++ [Call.sendPacket port buffer false] }
    if response > 0 then (true, { s3 with lorawan_send_successful := false })
    else (false, s3)

/-- `lorawan_joinCallback()` -/
def lorawan_joinCallback (r : Radio) (s : State) : State :=
  if r.joined then { s with calls := s.calls ++ [Call.setRX2Channel 869525000 3] }
  else { s with calls := s.calls ++ [Call.rejoinOTAA] }

/-- `lorawan_joined()` -/
def lorawan_joined (r : Radio) : Bool := r.joined

/-- `lorawan_checkCallback()`: debug output only. -/
def lorawan_checkCallback (_r : Radio) (s : State) : State := s

/-- Number of elements of the local array `uint8_t data[256]` of
`lorawan_receiveCallback`. -/
def DATA_SIZE : Nat := 256

/-- The store `data[i] = v` into the local array: `none` when `i` is not an index of
the array. -/
def storeByte (data : Nat → Nat) (i v : Nat) : Option (Nat → Nat) :=
  if i < DATA_SIZE then some (Function.update data i v) else none

/-- `LoRaWAN.read(buf, maxlen)`: copies at most `maxlen` bytes of the pending payload to
the start of `buf` and returns their number. -/
def LoRaWAN_read (r : Radio) (buf : Nat → Nat) (maxlen : Nat) : Nat × (Nat → Nat) :=
  let size := min r.rxPayload.length maxlen
  (size, fun i => if i < size then r.rxPayload.getD i 0 else buf i)

/-- The `n` bytes that `memcpy(dst, src, n)` copies. -/
def memcpy (src : Nat → Nat) (n : Nat) : List Nat := (List.range n).map src

/-- The statement `data[i] = v` inside `lorawan_receiveCallback`.  A store outside
`data` has no defined effect in C; here it is recorded in `State.overrun` and leaves the
array and the other variables of `State` as they were.  It happens exactly when 256
bytes are read (`receive_overrun`). -/
def store_data (data : Nat → Nat) (i v : Nat) (s : State) : (Nat → Nat) × State :=
  match storeByte data i v with
  | some d => (d, s)
  | none => (data, { s with overrun := true })

/-- `lorawan_receiveCallback()`.  `data0` is the content of the uninitialised local
array `data` on entry. -/
def lorawan_receiveCallback (cfg : Config) (r : Radio) (data0 : Nat → Nat) (s : State) :
    State :=
  if r.parsePacket then
    let rd := LoRaWAN_read r data0 DATA_SIZE
    let size := rd.1
    if size != 0 then
      let st := store_data rd.2 size 0 s
      let data := st.1
      let s1 := st.2
      let s2 : State :=
        if r.remotePort == cfg.settings_get_packet_port then
          if size == cfg.sizeof_settingsData_t then
            let bytes := memcpy data cfg.sizeof_settingsData_t
            { s1 with
              settings_packet_downlink := bytes
              calls := s1.calls ++ [Call.settings_from_downlink bytes] }
          else s1
        else s1
      if r.remotePort == cfg.command_get_packet_port then
        if size == 1 then { s2 with calls := s2.calls ++ [Call.command_receive (data 0)] }
        else s2
      else s2
    else s
  else s

/-- `lorawan_doneCallback()` -/
def lorawan_doneCallback (r : Radio) (s : State) : State :=
  if r.linkGateways == 0 then s else { s with lorawan_send_successful := true }

/-- Entry points of the module: the application's `lorawan_send` and the four callbacks
registered with the radio stack. -/
inductive Event where
  | send (port : Nat) (buffer : List Nat)
  | join
  | check
  | receive (data0 : Nat → Nat)
  | done

/-- One step of the module: the state after entry point `e` ran to completion while the
radio answered as `r`. -/
def step (cfg : Config) (r : Radio) (s : State) : Event → State
  | Event.send port buffer => (lorawan_send r s port buffer).2
  | Event.join => lorawan_joinCallback r s
  | Event.check => lorawan_checkCallback r s
  | Event.receive data0 => lorawan_receiveCallback cfg r data0 s
  | Event.done => lorawan_doneCallback r s

/-- A radio with no pending downlink, answering `sendPacket` with `resp`. -/
def idleRadio (joined busy : Bool) (resp : Int) (gateways : Nat) : Radio :=
  { joined := joined, busy := busy, sendPacket := fun _ _ _ => resp,
    linkGateways := gateways, parsePacket := false, rxPayload := [], remotePort := 0 }

/-- A radio holding one downlink frame. -/
def rxRadio (port : Nat) (payload : List Nat) : Radio :=
  { joined := true, busy := false, sendPacket := fun _ _ _ => 1,
    linkGateways := 1, parsePacket := true, rxPayload := payload, remotePort := port }

/-- State at start-up, with the packed data-rate byte `b`. -/
def initState (b : Nat) : State :=
  { lorawan_send_successful := false, lorawan_datarate_adr := b,
    settings_packet_downlink := [], calls := [], overrun := false }

/-! ## Auxiliary facts -/

theorem settingsCalls_append (a b : List Call) :
    settingsCalls (a ++ b) = settingsCalls a ++ settingsCalls b := by
  induction a with
  | nil => rfl
  | cons c cs ih => cases c <;> simp [settingsCalls, ih]

theorem commandCalls_append (a b : List Call) :
    commandCalls (a ++ b) = commandCalls a ++ commandCalls b := by
  induction a with
  | nil => rfl
  | cons c cs ih => cases c <;> simp [commandCalls, ih]

theorem shiftRight_seven_ne_zero (b : Nat) : ((b >>> 7) != 0) = decide (128 ≤ b) := by
  rw [Nat.shiftRight_eq_div_pow]
  by_cases h : 128 ≤ b
  · have h1 : b / 2 ^ 7 ≠ 0 := by omega
    simpa [h] using h1
  · have h1 : b / 2 ^ 7 = 0 := by omega
    simpa [h] using h1

theorem and_fifteen (b : Nat) : b &&& 0x0f = b % 16 :=
  Nat.and_pow_two_sub_one_eq_mod b 4

theorem store_data_fst (data : Nat → Nat) (i v : Nat) (s : State) (j : Nat) (h : j ≠ i) :
    (store_data data i v s).1 j = data j := by
  unfold store_data storeByte
  split_ifs <;> simp [Function.update, h]

theorem store_data_calls (data : Nat → Nat) (i v : Nat) (s : State) :
    (store_data data i v s).2.calls = s.calls := by
  unfold store_data storeByte
  split_ifs <;> rfl

theorem store_data_flag (data : Nat → Nat) (i v : Nat) (s : State) :
    (store_data data i v s).2.lorawan_send_successful = s.lorawan_send_successful := by
  unfold store_data storeByte
  split_ifs <;> rfl

theorem store_data_downlink (data : Nat → Nat) (i v : Nat) (s : State) :
    (store_data data i v s).2.settings_packet_downlink = s.settings_packet_downlink := by
  unfold store_data storeByte
  split_ifs <;> rfl

theorem memcpy_eq_take (l : List Nat) (data : Nat → Nat) (n : Nat) (hn : n ≤ l.length)
    (hdata : ∀ j, j < n → data j = l.getD j 0) : memcpy data n = l.take n := by
  unfold memcpy
  apply List.ext_getElem
  · simp [hn]
  · intro j h1 h2
    have hj : j < n := by simpa using h1
    have hl : j < l.length := by omega
    simp [hdata j hj, List.getElem?_eq_getElem hl]

/-- Number of bytes the receive callback reads from the radio. -/
theorem read_size (r : Radio) (data0 : Nat → Nat) :
    (LoRaWAN_read r data0 DATA_SIZE).1 = min r.rxPayload.length DATA_SIZE := rfl

theorem read_data (r : Radio) (data0 : Nat → Nat) (j : Nat)
    (hj : j < min r.rxPayload.length DATA_SIZE) :
    (LoRaWAN_read r data0 DATA_SIZE).2 j = r.rxPayload.getD j 0 := by
  simp only [LoRaWAN_read]
  rw [if_pos hj]

/-- Calls made by the receive callback, in order. -/
theorem receive_calls (cfg : Config) (r : Radio) (data0 : Nat → Nat) (s : State) :
    (lorawan_receiveCallback cfg r data0 s).calls =
      s.calls ++
      (if r.parsePacket = true ∧ r.rxPayload ≠ [] ∧
          r.remotePort = cfg.settings_get_packet_port ∧
          min r.rxPayload.length DATA_SIZE = cfg.sizeof_settingsData_t
        then [Call.settings_from_downlink (r.rxPayload.take cfg.sizeof_settingsData_t)]
        else []) ++
      (if r.parsePacket = true ∧ r.remotePort = cfg.command_get_packet_port ∧
          min r.rxPayload.length DATA_SIZE = 1
        then [Call.command_receive (r.rxPayload.getD 0 0)] else []) := by
  unfold lorawan_receiveCallback
  cases hp : r.parsePacket
  · simp
  · simp only [read_size, if_true, true_and]
    by_cases h0 : min r.rxPayload.length DATA_SIZE = 0
    · have hnil : r.rxPayload = [] := by
        have : r.rxPayload.length = 0 := by
          simp only [DATA_SIZE] at h0; omega
        exact List.length_eq_zero.mp this
      simp [hnil]
    · have hpos : 0 < min r.rxPayload.length DATA_SIZE := Nat.pos_of_ne_zero h0
      have hne : r.rxPayload ≠ [] := by
        intro hnil; simp [hnil] at h0
      have hd0 : (store_data (LoRaWAN_read r data0 DATA_SIZE).2
          (min r.rxPayload.length DATA_SIZE) 0 s).1 0 = r.rxPayload.getD 0 0 := by
        rw [store_data_fst _ _ _ _ _ (Ne.symm h0), read_data r data0 0 hpos]
      have hcp : ∀ n, n = min r.rxPayload.length DATA_SIZE →
          memcpy (store_data (LoRaWAN_read r data0 DATA_SIZE).2
            (min r.rxPayload.length DATA_SIZE) 0 s).1 n = r.rxPayload.take n := by
        intro n hn
        apply memcpy_eq_take
        · rw [hn]; exact Nat.min_le_left _ _
        · intro j hj
          rw [store_data_fst _ _ _ _ _ (by omega), read_data r data0 j (by omega)]
      have hcalls := store_data_calls (LoRaWAN_read r data0 DATA_SIZE).2
        (min r.rxPayload.length DATA_SIZE) 0 s
      generalize store_data (LoRaWAN_read r data0 DATA_SIZE).2
        (min r.rxPayload.length DATA_SIZE) 0 s = st at hd0 hcp hcalls ⊢
      generalize min r.rxPayload.length DATA_SIZE = size at h0 hpos hcp ⊢
      have hcp2 := hcp size rfl
      clear hcp
      simp only [bne_iff_ne, ne_eq, beq_iff_eq, hne, not_false_eq_true, true_and]
      split_ifs <;> simp_all

/-- The receive callback never writes `lorawan_send_successful` or the packed data-rate
byte. -/
theorem receive_flag (cfg : Config) (r : Radio) (data0 : Nat → Nat) (s : State) :
    (lorawan_receiveCallback cfg r data0 s).lorawan_send_successful =
      s.lorawan_send_successful := by
  unfold lorawan_receiveCallback
  simp only []
  split_ifs <;> simp [store_data_flag]

/-- Content of the downlink settings buffer after the receive callback. -/
theorem receive_downlink (cfg : Config) (r : Radio) (data0 : Nat → Nat) (s : State) :
    (lorawan_receiveCallback cfg r data0 s).settings_packet_downlink =
      if r.parsePacket = true ∧ r.rxPayload ≠ [] ∧
          r.remotePort = cfg.settings_get_packet_port ∧
          min r.rxPayload.length DATA_SIZE = cfg.sizeof_settingsData_t
        then r.rxPayload.take cfg.sizeof_settingsData_t
        else s.settings_packet_downlink := by
  unfold lorawan_receiveCallback
  cases hp : r.parsePacket
  · simp
  · simp only [read_size, if_true, true_and]
    by_cases h0 : min r.rxPayload.length DATA_SIZE = 0
    · have hnil : r.rxPayload = [] := by
        have : r.rxPayload.length = 0 := by
          simp only [DATA_SIZE] at h0; omega
        exact List.length_eq_zero.mp this
      simp [hnil]
    · have hne : r.rxPayload ≠ [] := by
        intro hnil; simp [hnil] at h0
      have hcp : memcpy (store_data (LoRaWAN_read r data0 DATA_SIZE).2
            (min r.rxPayload.length DATA_SIZE) 0 s).1 (min r.rxPayload.length DATA_SIZE)
          = r.rxPayload.take (min r.rxPayload.length DATA_SIZE) := by
        apply memcpy_eq_take
        · exact Nat.min_le_left _ _
        · intro j hj
          rw [store_data_fst _ _ _ _ _ (by omega), read_data r data0 j (by omega)]
      have hdl := store_data_downlink (LoRaWAN_read r data0 DATA_SIZE).2
        (min r.rxPayload.length DATA_SIZE) 0 s
      generalize store_data (LoRaWAN_read r data0 DATA_SIZE).2
        (min r.rxPayload.length DATA_SIZE) 0 s = st at hcp hdl ⊢
      generalize min r.rxPayload.length DATA_SIZE = size at h0 hcp ⊢
      simp only [bne_iff_ne, ne_eq, beq_iff_eq, hne, not_false_eq_true, true_and]
      split_ifs <;> simp_all

/-- The receive callback stores outside `data` exactly when it reads a full 256 bytes. -/
theorem receive_overrun (cfg : Config) (r : Radio) (data0 : Nat → Nat) (s : State) :
    (lorawan_receiveCallback cfg r data0 s).overrun =
      (s.overrun || (r.parsePacket && decide (DATA_SIZE ≤ r.rxPayload.length))) := by
  unfold lorawan_receiveCallback
  cases hp : r.parsePacket
  · simp
  · simp only [read_size, if_true]
    by_cases hge : DATA_SIZE ≤ r.rxPayload.length
    · have hmin : min r.rxPayload.length DATA_SIZE = DATA_SIZE := Nat.min_eq_right hge
      rw [hmin]
      have hst : (store_data (LoRaWAN_read r data0 DATA_SIZE).2 DATA_SIZE 0 s).2.overrun
          = true := by
        simp [store_data, storeByte]
      have h256 : (DATA_SIZE != 0) = true := by decide
      simp only [h256, if_true]
      split_ifs <;> simp [hst, hge]
    · have hlt : r.rxPayload.length < DATA_SIZE := by omega
      have hmin : min r.rxPayload.length DATA_SIZE = r.rxPayload.length :=
        Nat.min_eq_left (by omega)
      rw [hmin]
      have hst : (store_data (LoRaWAN_read r data0 DATA_SIZE).2 r.rxPayload.length 0 s).2.overrun
          = s.overrun := by
        simp [store_data, storeByte, hlt]
      split_ifs <;> simp [hst, hge]

/-- `lorawan_send` never sets `lorawan_send_successful`. -/
theorem send_flag_after (r : Radio) (s : State) (port : Nat) (buffer : List Nat) :
    (lorawan_send r s port buffer).2.lorawan_send_successful =
      (s.lorawan_send_successful && !(lorawan_send r s port buffer).1) := by
  unfold lorawan_send
  cases hj : r.joined <;> cases hb : r.busy <;> simp
  by_cases h : 0 < r.sendPacket port buffer false <;> simp [h]

/-! ## Uplink: `lorawan_send` -/

/-- C1: `lorawan_send` returns true exactly when the radio reports joined, reports not
busy, and `sendPacket` answers a value greater than 0; in particular it returns false
whenever `joined()` is false and whenever `busy()` is true. -/
theorem lorawan_send_true_iff (r : Radio) (s : State) (port : Nat) (buffer : List Nat) :
    ((lorawan_send r s port buffer).1 = true ↔
      (r.joined = true ∧ r.busy = false ∧ 0 < r.sendPacket port buffer false)) ∧
    (r.joined = false → (lorawan_send r s port buffer).1 = false) ∧
    (r.busy = true → (lorawan_send r s port buffer).1 = false) := by
  unfold lorawan_send
  cases hj : r.joined <;> cases hb : r.busy <;> simp
  by_cases h : 0 < r.sendPacket port buffer false <;> simp [h]

/-- Witness for C1: a joined, idle radio that accepts the frame, a radio that is not
joined, and a busy radio. -/
theorem lorawan_send_true_iff_witness :
    (lorawan_send (idleRadio true false 1 0) (initState 0) 2 [1]).1 = true ∧
    (lorawan_send (idleRadio false false 1 0) (initState 0) 2 [1]).1 = false ∧
    (lorawan_send (idleRadio true true 1 0) (initState 0) 2 [1]).1 = false :=
  ⟨(lorawan_send_true_iff (idleRadio true false 1 0) (initState 0) 2 [1]).1.2
      ⟨rfl, rfl, by decide⟩,
    (lorawan_send_true_iff (idleRadio false false 1 0) (initState 0) 2 [1]).2.1 rfl,
    (lorawan_send_true_iff (idleRadio true true 1 0) (initState 0) 2 [1]).2.2 rfl⟩

/-- C2: after `lorawan_send` returns, `lorawan_send_successful` is false if the call
returned true, and has the value it had before the call if the call returned false. -/
theorem lorawan_send_flag (r : Radio) (s : State) (port : Nat) (buffer : List Nat) :
    ((lorawan_send r s port buffer).1 = true →
      (lorawan_send r s port buffer).2.lorawan_send_successful = false) ∧
    ((lorawan_send r s port buffer).1 = false →
      (lorawan_send r s port buffer).2.lorawan_send_successful =
        s.lorawan_send_successful) := by
  unfold lorawan_send
  cases hj : r.joined <;> cases hb : r.busy <;> simp
  by_cases h : 0 < r.sendPacket port buffer false <;> simp [h]

/-- Witness for C2: with the flag set beforehand, an accepted submission clears it and a
rejected one (answer 0) keeps it. -/
theorem lorawan_send_flag_witness :
    (lorawan_send (idleRadio true false 1 0)
        { initState 0 with lorawan_send_successful := true } 2 [1]).2.lorawan_send_successful
      = false ∧
    (lorawan_send (idleRadio true false 0 0)
        { initState 0 with lorawan_send_successful := true } 2 [1]).2.lorawan_send_successful
      = true :=
  ⟨(lorawan_send_flag (idleRadio true false 1 0)
      { initState 0 with lorawan_send_successful := true } 2 [1]).1 (by decide),
    (lorawan_send_flag (idleRadio true false 0 0)
      { initState 0 with lorawan_send_successful := true } 2 [1]).2 (by decide)⟩

/-- C9: a `lorawan_send` call that passes the joined and busy checks requests, before
`sendPacket`, `setADR` with the high bit of the packed byte `b` (true exactly when
`b ≥ 128`) and `setDataRate` with its low nibble, which is at most 15; two bytes that
agree on bit 7 and on bits 0 to 3, whatever their bits 4 to 6, lead to the same
requests. -/
theorem lorawan_send_adr_datarate (r : Radio) (s : State) (port : Nat) (buffer : List Nat)
    (hj : r.joined = true) (hb : r.busy = false) :
    (lorawan_send r s port buffer).2.calls =
      s.calls ++ [Call.setADR ((s.lorawan_datarate_adr >>> 7) != 0),
        Call.setDataRate (s.lorawan_datarate_adr &&& 0x0f),
        Call.sendPacket port buffer false] ∧
    ((s.lorawan_datarate_adr >>> 7) != 0) = decide (128 ≤ s.lorawan_datarate_adr) ∧
    s.lorawan_datarate_adr &&& 0x0f = s.lorawan_datarate_adr % 16 ∧
    s.lorawan_datarate_adr &&& 0x0f ≤ 15 ∧
    ∀ b, b / 128 = s.lorawan_datarate_adr / 128 →
      b % 16 = s.lorawan_datarate_adr % 16 →
      (lorawan_send r { s with lorawan_datarate_adr := b } port buffer).2.calls =
        (lorawan_send r s port buffer).2.calls := by
  have hcalls : ∀ t : State, (lorawan_send r t port buffer).2.calls =
      t.calls ++ [Call.setADR ((t.lorawan_datarate_adr >>> 7) != 0),
        Call.setDataRate (t.lorawan_datarate_adr &&& 0x0f),
        Call.sendPacket port buffer false] := by
    intro t
    unfold lorawan_send
    by_cases h : 0 < r.sendPacket port buffer false <;> simp [hj, hb, h]
  refine ⟨hcalls s, shiftRight_seven_ne_zero _, and_fifteen _, ?_, ?_⟩
  · rw [and_fifteen]; omega
  · intro b h7 h4
    rw [hcalls, hcalls]
    simp only [shiftRight_seven_ne_zero, and_fifteen, h4]
    have hd : decide (128 ≤ b) = decide (128 ≤ s.lorawan_datarate_adr) := by
      apply decide_eq_decide.mpr
      omega
    rw [hd]

/-- Witness for C9: the byte `0x93` (ADR bit set, bits 4 to 6 equal to 1, nibble 3). -/
theorem lorawan_send_adr_datarate_witness :
    (lorawan_send (idleRadio true false 1 0) (initState 0x93) 2 [1]).2.calls =
      [Call.setADR true, Call.setDataRate 3, Call.sendPacket 2 [1] false] :=
  (lorawan_send_adr_datarate (idleRadio true false 1 0) (initState 0x93) 2 [1]
    rfl rfl).1

/-! ## Join and transmission-done callbacks -/

/-- C8: the join callback makes exactly one request to the radio: `rejoinOTAA` (and no
`setRX2Channel`) when `joined()` is false, `setRX2Channel(869525000, 3)` (and no
`rejoinOTAA`) when `joined()` is true. -/
theorem lorawan_joinCallback_calls (r : Radio) (s : State) :
    (r.joined = false → (lorawan_joinCallback r s).calls = s.calls ++ [Call.rejoinOTAA]) ∧
    (r.joined = true →
      (lorawan_joinCallback r s).calls = s.calls ++ [Call.setRX2Channel 869525000 3]) := by
  unfold lorawan_joinCallback
  cases hj : r.joined <;> simp

/-- Witness for C8: one callback after a failed join, one after a successful join. -/
theorem lorawan_joinCallback_calls_witness :
    (lorawan_joinCallback (idleRadio false false 0 0) (initState 0)).calls
      = [Call.rejoinOTAA] ∧
    (lorawan_joinCallback (idleRadio true false 0 0) (initState 0)).calls
      = [Call.setRX2Channel 869525000 3] :=
  ⟨(lorawan_joinCallback_calls (idleRadio false false 0 0) (initState 0)).1 rfl,
    (lorawan_joinCallback_calls (idleRadio true false 0 0) (initState 0)).2 rfl⟩

/-- C3: from a state in which `lorawan_send_successful` is false, the flag is true
after a step exactly when the step is a done callback taken while `linkGateways()` is
nonzero; a done callback with `linkGateways()` equal to 0 leaves the flag as it was. -/
theorem step_flag (cfg : Config) (r : Radio) (s : State) (e : Event) :
    (s.lorawan_send_successful = false →
      ((step cfg r s e).lorawan_send_successful = true ↔
        (e = Event.done ∧ r.linkGateways ≠ 0))) ∧
    (r.linkGateways = 0 →
      (step cfg r s Event.done).lorawan_send_successful = s.lorawan_send_successful) := by
  constructor
  · intro hs
    cases e with
    | send port buffer =>
      have h := send_flag_after r s port buffer
      simp [step, h, hs]
    | join =>
      simp only [step, lorawan_joinCallback]
      split_ifs <;> simp [hs]
    | check => simp [step, lorawan_checkCallback, hs]
    | receive data0 => simp [step, receive_flag, hs]
    | done =>
      simp only [step, lorawan_doneCallback]
      by_cases hg : r.linkGateways = 0 <;> simp [hg, hs]
  · intro hg
    simp [step, lorawan_doneCallback, hg]

/-- Witness for C3: with the flag false, a done callback with one reachable gateway sets
it, and a done callback with none leaves it false. -/
theorem step_flag_witness :
    (step ⟨1, 2, 8⟩ (idleRadio true false 1 1) (initState 0) Event.done).lorawan_send_successful
      = true ∧
    (step ⟨1, 2, 8⟩ (idleRadio true false 1 0) (initState 0) Event.done).lorawan_send_successful
      = false :=
  ⟨((step_flag ⟨1, 2, 8⟩ (idleRadio true false 1 1) (initState 0) Event.done).1 rfl).2
      ⟨rfl, by decide⟩,
    (step_flag ⟨1, 2, 8⟩ (idleRadio true false 1 0) (initState 0) Event.done).2 rfl⟩

/-! ## Downlink: `lorawan_receiveCallback` -/

/-- C4: for a parseable frame of nonzero length on the settings port, of at most 255
bytes so that the terminator store `data[size] = 0` stays inside the 256-byte array: if
the payload length equals `sizeof(settingsData_t)`, `settings_from_downlink` is invoked
exactly once, with the downlink settings buffer holding exactly the payload bytes;
otherwise it is not invoked and the buffer is unchanged. -/
theorem receive_settings_port (cfg : Config) (r : Radio) (data0 : Nat → Nat) (s : State)
    (hparse : r.parsePacket = true) (hlen : 0 < r.rxPayload.length)
    (hmax : r.rxPayload.length ≤ 255)
    (hport : r.remotePort = cfg.settings_get_packet_port) :
    (r.rxPayload.length = cfg.sizeof_settingsData_t →
      settingsCalls (lorawan_receiveCallback cfg r data0 s).calls =
        settingsCalls s.calls ++ [r.rxPayload] ∧
      (lorawan_receiveCallback cfg r data0 s).settings_packet_downlink = r.rxPayload) ∧
    (r.rxPayload.length ≠ cfg.sizeof_settingsData_t →
      settingsCalls (lorawan_receiveCallback cfg r data0 s).calls = settingsCalls s.calls ∧
      (lorawan_receiveCallback cfg r data0 s).settings_packet_downlink =
        s.settings_packet_downlink) := by
  have hne : r.rxPayload ≠ [] := by
    intro h; simp [h] at hlen
  have hmin : min r.rxPayload.length DATA_SIZE = r.rxPayload.length :=
    Nat.min_eq_left (by simp only [DATA_SIZE]; omega)
  rw [receive_calls, receive_downlink, hmin]
  constructor
  · intro heq
    have htake : r.rxPayload.take cfg.sizeof_settingsData_t = r.rxPayload := by
      rw [← heq]; exact List.take_length _
    simp only [hparse, hne, hport, heq, ne_eq, not_false_eq_true, and_self, if_true, htake]
    constructor
    · split_ifs <;> simp [settingsCalls_append, settingsCalls]
    · trivial
  · intro hneq
    simp only [hparse, hne, hport, hneq, ne_eq, not_false_eq_true, and_false, if_false,
      List.append_nil, true_and]
    split_ifs <;> simp [settingsCalls_append, settingsCalls]

/-- Witness for C4: record size 2 on settings port 3; a 2-byte frame is applied, a 3-byte
frame is dropped. -/
theorem receive_settings_port_witness :
    (settingsCalls (lorawan_receiveCallback ⟨3, 4, 2⟩ (rxRadio 3 [7, 8]) (fun _ => 0)
        (initState 0)).calls = [[7, 8]] ∧
      (lorawan_receiveCallback ⟨3, 4, 2⟩ (rxRadio 3 [7, 8]) (fun _ => 0)
        (initState 0)).settings_packet_downlink = [7, 8]) ∧
    (settingsCalls (lorawan_receiveCallback ⟨3, 4, 2⟩ (rxRadio 3 [7, 8, 9]) (fun _ => 0)
        (initState 0)).calls = [] ∧
      (lorawan_receiveCallback ⟨3, 4, 2⟩ (rxRadio 3 [7, 8, 9]) (fun _ => 0)
        (initState 0)).settings_packet_downlink = []) :=
  ⟨(receive_settings_port ⟨3, 4, 2⟩ (rxRadio 3 [7, 8]) (fun _ => 0) (initState 0)
      rfl (by decide) (by decide) rfl).1 rfl,
    (receive_settings_port ⟨3, 4, 2⟩ (rxRadio 3 [7, 8, 9]) (fun _ => 0) (initState 0)
      rfl (by decide) (by decide) rfl).2 (by decide)⟩

/-- C5: for a parseable frame on the command port, `command_receive` is invoked if and
only if the payload length is 1, and then exactly once, with the single payload byte. -/
theorem receive_command_port (cfg : Config) (r : Radio) (data0 : Nat → Nat) (s : State)
    (hparse : r.parsePacket = true)
    (hport : r.remotePort = cfg.command_get_packet_port) :
    (commandCalls (lorawan_receiveCallback cfg r data0 s).calls ≠ commandCalls s.calls ↔
      r.rxPayload.length = 1) ∧
    (∀ b, r.rxPayload = [b] →
      commandCalls (lorawan_receiveCallback cfg r data0 s).calls =
        commandCalls s.calls ++ [b]) ∧
    (r.rxPayload.length ≠ 1 →
      commandCalls (lorawan_receiveCallback cfg r data0 s).calls = commandCalls s.calls) := by
  have hmin : min r.rxPayload.length DATA_SIZE = 1 ↔ r.rxPayload.length = 1 := by
    simp only [DATA_SIZE]; omega
  rw [receive_calls]
  simp only [hparse, hport, hmin, true_and, commandCalls_append]
  have hset : ∀ l : List Call, (∀ c ∈ l, ∃ b, c = Call.settings_from_downlink b) →
      commandCalls l = [] := by
    intro l hl
    induction l with
    | nil => rfl
    | cons c cs ih =>
      obtain ⟨b, rfl⟩ := hl c (List.mem_cons_self _ _)
      simpa [commandCalls] using ih (fun c hc => hl c (List.mem_cons_of_mem _ hc))
  have h1 : commandCalls (if r.rxPayload ≠ [] ∧
      cfg.command_get_packet_port = cfg.settings_get_packet_port ∧
      min r.rxPayload.length DATA_SIZE = cfg.sizeof_settingsData_t
      then [Call.settings_from_downlink (r.rxPayload.take cfg.sizeof_settingsData_t)]
      else []) = [] := by
    apply hset
    intro c hc
    split_ifs at hc
    · exact ⟨_, List.mem_singleton.mp hc⟩
    · simp at hc
  rw [h1]
  refine ⟨?_, ?_, ?_⟩
  · by_cases hl : r.rxPayload.length = 1 <;> simp [hl, commandCalls]
  · intro b hb
    simp [hb, commandCalls]
  · intro hl
    simp [hl, commandCalls]

/-- Witness for C5: command port 4; the 1-byte frame `[5]` reaches `command_receive`, a
2-byte frame does not. -/
theorem receive_command_port_witness :
    commandCalls (lorawan_receiveCallback ⟨3, 4, 2⟩ (rxRadio 4 [5]) (fun _ => 0)
        (initState 0)).calls = [5] ∧
    commandCalls (lorawan_receiveCallback ⟨3, 4, 2⟩ (rxRadio 4 [5, 6]) (fun _ => 0)
        (initState 0)).calls = [] :=
  ⟨(receive_command_port ⟨3, 4, 2⟩ (rxRadio 4 [5]) (fun _ => 0) (initState 0) rfl rfl).2.1
      5 rfl,
    (receive_command_port ⟨3, 4, 2⟩ (rxRadio 4 [5, 6]) (fun _ => 0) (initState 0)
      rfl rfl).2.2 (by decide)⟩

/-- C6, counterexample: with the settings port equal to the command port (5) and a
settings record of one byte, the 1-byte frame `[7]` on port 5 reaches both hooks. -/
theorem receive_both_hooks_example :
    (lorawan_receiveCallback ⟨5, 5, 1⟩ (rxRadio 5 [7]) (fun _ => 0) (initState 0)).calls =
      [Call.settings_from_downlink [7], Call.command_receive 7] := by
  decide

/-- C6, amended: the receive callback invokes both hooks for one frame exactly when the
frame is parseable, is one byte long, its port is both the settings port and the command
port, and `sizeof(settingsData_t)` is 1; in every other case it invokes at most one of
them. -/
theorem receive_both_hooks_iff (cfg : Config) (r : Radio) (data0 : Nat → Nat) (s : State) :
    (settingsCalls (lorawan_receiveCallback cfg r data0 s).calls ≠ settingsCalls s.calls ∧
      commandCalls (lorawan_receiveCallback cfg r data0 s).calls ≠ commandCalls s.calls) ↔
    (r.parsePacket = true ∧ r.rxPayload.length = 1 ∧
      r.remotePort = cfg.settings_get_packet_port ∧
      r.remotePort = cfg.command_get_packet_port ∧ cfg.sizeof_settingsData_t = 1) := by
  have hmin : min r.rxPayload.length DATA_SIZE = 1 ↔ r.rxPayload.length = 1 := by
    simp only [DATA_SIZE]; omega
  have hne : r.rxPayload.length = 1 → r.rxPayload ≠ [] := by
    intro h hnil; simp [hnil] at h
  rw [receive_calls]
  simp only [settingsCalls_append, commandCalls_append]
  by_cases hA : r.parsePacket = true ∧ r.rxPayload ≠ [] ∧
      r.remotePort = cfg.settings_get_packet_port ∧
      min r.rxPayload.length DATA_SIZE = cfg.sizeof_settingsData_t <;>
  by_cases hB : r.parsePacket = true ∧ r.remotePort = cfg.command_get_packet_port ∧
      min r.rxPayload.length DATA_SIZE = 1
  · rw [if_pos hA, if_pos hB]
    have hrhs : r.parsePacket = true ∧ r.rxPayload.length = 1 ∧
        r.remotePort = cfg.settings_get_packet_port ∧
        r.remotePort = cfg.command_get_packet_port ∧ cfg.sizeof_settingsData_t = 1 :=
      ⟨hB.1, hmin.mp hB.2.2, hA.2.2.1, hB.2.1, by rw [← hA.2.2.2]; exact hB.2.2⟩
    refine ⟨fun _ => hrhs, fun _ => ?_⟩
    simp [settingsCalls, commandCalls]
  · simp only [if_pos hA, if_neg hB, settingsCalls, commandCalls, List.append_nil,
      ne_eq, not_true_eq_false, and_false, false_iff]
    rintro ⟨hp, h1, hs, hc, _⟩
    exact hB ⟨hp, hc, hmin.mpr h1⟩
  · simp only [if_neg hA, if_pos hB, settingsCalls, commandCalls, List.append_nil,
      ne_eq, not_true_eq_false, false_and, false_iff]
    rintro ⟨hp, h1, hs, hc, hz⟩
    exact hA ⟨hp, hne h1, hs, by rw [hz]; exact hmin.mpr h1⟩
  · simp only [if_neg hA, if_neg hB, settingsCalls, commandCalls, List.append_nil,
      ne_eq, not_true_eq_false, false_and, false_iff]
    rintro ⟨hp, h1, hs, hc, _⟩
    exact hB ⟨hp, hc, hmin.mpr h1⟩

/-- C7: for a frame whose port is neither the settings port nor the command port, the
receive callback invokes no hook (it makes no call at all) and leaves the downlink
settings buffer and `lorawan_send_successful` unchanged. -/
theorem receive_other_port (cfg : Config) (r : Radio) (data0 : Nat → Nat) (s : State)
    (hs : r.remotePort ≠ cfg.settings_get_packet_port)
    (hc : r.remotePort ≠ cfg.command_get_packet_port) :
    (lorawan_receiveCallback cfg r data0 s).calls = s.calls ∧
    (lorawan_receiveCallback cfg r data0 s).settings_packet_downlink =
      s.settings_packet_downlink ∧
    (lorawan_receiveCallback cfg r data0 s).lorawan_send_successful =
      s.lorawan_send_successful := by
  rw [receive_calls, receive_downlink, receive_flag]
  simp [hs, hc]

/-- Witness for C7: a 2-byte frame on port 9, with settings port 3 and command port 4. -/
theorem receive_other_port_witness :
    (lorawan_receiveCallback ⟨3, 4, 2⟩ (rxRadio 9 [7, 8]) (fun _ => 0) (initState 0)).calls
      = [] ∧
    (lorawan_receiveCallback ⟨3, 4, 2⟩ (rxRadio 9 [7, 8]) (fun _ => 0)
      (initState 0)).settings_packet_downlink = [] ∧
    (lorawan_receiveCallback ⟨3, 4, 2⟩ (rxRadio 9 [7, 8]) (fun _ => 0)
      (initState 0)).lorawan_send_successful = false :=
  receive_other_port ⟨3, 4, 2⟩ (rxRadio 9 [7, 8]) (fun _ => 0) (initState 0)
    (by decide) (by decide)

/-- C10, at the failing input: when `read` delivers 256 bytes, the terminator store
`data[size] = 0` is at index 256, which is not an index of the 256-element array. -/
theorem receive_terminator_out_of_bounds :
    (LoRaWAN_read (rxRadio 9 (List.replicate 256 0)) (fun _ => 0) DATA_SIZE).1 = 256 ∧
    ¬ (256 < DATA_SIZE) ∧
    (storeByte (LoRaWAN_read (rxRadio 9 (List.replicate 256 0)) (fun _ => 0) DATA_SIZE).2
      256 0).isNone = true ∧
    (lorawan_receiveCallback ⟨3, 4, 2⟩ (rxRadio 9 (List.replicate 256 0)) (fun _ => 0)
      (initState 0)).overrun = true := by
  have hlen : (rxRadio 9 (List.replicate 256 0)).rxPayload.length = 256 :=
    List.length_replicate 256 0
  refine ⟨?_, by decide, ?_, ?_⟩
  · rw [read_size, hlen]; rfl
  · simp [storeByte, DATA_SIZE]
  · rw [receive_overrun, hlen]; rfl

end Lorawan
